import Mathlib

/-!
Shallow embedding of `ris/clickatellhttp/http.py` (Clickatell HTTP API client)
and proofs about its specified behaviour.

The transport (`urllib2.urlopen(url).read()` wrapped by
`__fetch_url_response`, which turns a `URLError` into the empty string) is
modelled as an oracle `fetch : String → String` passed to each operation.
Python exceptions that can escape the library's methods are modelled by the
`PyError` type: the library's own `Exception(...)` calls and
`ClickatellException`, plus the uncaught `IndexError` (from `data[0]` /
`data[1]` on a too-short `re.findall` result) and `KeyError` (from
`CLICKATELL_ERROR_CODES[code]` on a code absent from the table).
-/

namespace Clickatell

/-- The module-level `CLICKATELL_MESSAGE_STATUS_CODES` dict, as an association
list in source order. -/
def CLICKATELL_MESSAGE_STATUS_CODES : List (String × String) :=
  [("001", "Message Unknown"),
   ("002", "Message Queued"),
   ("003", "Delivered to Gateway"),
   ("004", "Received by Recipient"),
   ("005", "Error with Message"),
   ("006", "User Cancelled Delivery"),
   ("007", "Error Delivering Message"),
   ("008", "OK"),
   ("009", "Routing Error"),
   ("010", "Message Expired"),
   ("011", "Message Queued for Later Delivery"),
   ("012", "Out of Credit"),
   ("014", "Maximum MT Limit Exceeded")]

/-- The module-level `CLICKATELL_ERROR_CODES` dict, as an association list in
source order. -/
def CLICKATELL_ERROR_CODES : List (String × String) :=
  [("001", "Authentication Failed"),
   ("002", "Unknown Username or Password"),
   ("003", "Session ID Expired"),
   ("005", "Missing Session ID"),
   ("007", "IP Lockdown Violation"),
   ("101", "Invalid or Missing Parameters"),
   ("102", "Invalid User Data Header"),
   ("103", "Unknown API Message ID"),
   ("104", "Unknown Client Message ID"),
   ("105", "Invalid Destination Address"),
   ("106", "Invalid Source Address"),
   ("107", "Empty Message"),
   ("108", "Invalid or Missing API ID"),
   ("109", "Missing Message ID"),
   ("113", "Maximum Message Parts Exceeded"),
   ("114", "Cannot Route Message"),
   ("115", "Message Expired"),
   ("116", "Invalid Unicode Data"),
   ("120", "Invalid Delivery Time"),
   ("121", "Destination Mobile Number Blocked"),
   ("122", "Destination Mobile Opted Out"),
   ("123", "Invalid Sender ID"),
   ("128", "Number Delisted"),
   ("130", "Maximum MT limit Exceeded Until <UNIX TIME STAMP>"),
   ("201", "Invalid Batch ID"),
   ("202", "No Batch Template"),
   ("301", "No Credit Left"),
   ("901", "Internal Error")]

/-- Python exceptions that can escape the library's methods. -/
inductive PyError where
  /-- `Exception('Empty message or recipient. Message cannot be sent')` -/
  | invalidArgument : PyError
  /-- `Exception('Empty response received from Clickatell server')` -/
  | emptyResponse : PyError
  /-- an uncaught Python `KeyError` from `CLICKATELL_ERROR_CODES[key]` -/
  | keyError : String → PyError
  /-- an uncaught Python `IndexError` from `data[0]` or `data[1]` -/
  | indexError : PyError
  /-- `ClickatellException(code)` raised by `__login` -/
  | authError : String → PyError
  /-- `Exception('Failed to connect to API server')` raised by `__login` -/
  | connectionError : PyError
deriving Repr, DecidableEq

/-- Python dict membership lookup on an association list (`dict.get` view):
first matching key wins. -/
def dictLookup (table : List (String × String)) (key : String) : Option String :=
  (table.find? (fun p => p.1 == key)).map (fun p => p.2)

/-- Python `table[key]`: raises `KeyError` when the key is absent. -/
def pyDictGet (table : List (String × String)) (key : String) :
    Except PyError String :=
  match dictLookup table key with
  | some v => Except.ok v
  | none => Except.error (PyError.keyError key)

/-- Python `l[i]` for a non-negative index: raises `IndexError` when out of
range. -/
def pyListGet {α : Type} (l : List α) (i : Nat) : Except PyError α :=
  match l.get? i with
  | some x => Except.ok x
  | none => Except.error PyError.indexError

/-- Python `s.startswith(pre)`. -/
def pyStartsWith (s pre : String) : Bool :=
  pre.toList.isPrefixOf s.toList

/-- Helper for `pySplitNl`: split a character list on a separator character,
keeping empty segments (Python `str.split` with an explicit separator). -/
def splitChAux (sep : Char) : List Char → List (List Char)
  | [] => [[]]
  | c :: cs =>
    let r := splitChAux sep cs
    if c = sep then [] :: r
    else (c :: r.headI) :: r.tail

/-- Python `s.split('\n')`: always returns at least one segment; the empty
string yields `[""]`. -/
def pySplitNl (s : String) : List String :=
  (splitChAux (Char.ofNat 10) s.toList).map (fun cs => String.mk cs)

/-- Helper for `reFindall`: maximal runs of characters satisfying `p`, with
`cur` the (reversed) run currently being read. -/
def findallAux (p : Char → Bool) : List Char → List Char → List (List Char)
  | [], cur => if cur.isEmpty then [] else [cur.reverse]
  | c :: cs, cur =>
    if p c then findallAux p cs (c :: cur)
    else if cur.isEmpty then findallAux p cs []
    else cur.reverse :: findallAux p cs []

/-- Python `re.findall` for a pattern of the shape `([X]+)` over a character
class `X`: the maximal non-empty runs of matching characters, left to
right. -/
def reFindall (p : Char → Bool) (s : String) : List String :=
  (findallAux p s.toList []).map (fun cs => String.mk cs)

/-- Character class of `__INT_HEX_RE = re.compile('([0-9a-f]+)')`. -/
def isIntHexChar (c : Char) : Bool :=
  (Char.ofNat 48 ≤ c && c ≤ Char.ofNat 57) ||
  (Char.ofNat 97 ≤ c && c ≤ Char.ofNat 102)

/-- Character class of `__INT_RE = re.compile('([0-9]+)')`. -/
def isIntChar (c : Char) : Bool :=
  Char.ofNat 48 ≤ c && c ≤ Char.ofNat 57

/-- Python `s[a:b]` for `0 ≤ a ≤ b` (both ends clamped to the string length,
as in Python). -/
def pySlice (s : String) (a b : Nat) : String :=
  (s.drop a).take (b - a)

/-- Helper for `pyFind`: index of the first position at or after offset `i`
where `sub` is a prefix of the remaining characters. -/
def findSubAux (sub : List Char) : List Char → Nat → Option Nat
  | [], i => if sub.isPrefixOf ([] : List Char) then some i else none
  | c :: t, i => if sub.isPrefixOf (c :: t) then some i else findSubAux sub t (i + 1)

/-- Python `s.find(sub)`: index of the first occurrence, `-1` when absent. -/
def pyFind (s sub : String) : Int :=
  match findSubAux sub.toList s.toList 0 with
  | some i => (i : Int)
  | none => -1

/-- Characters Python 2 `urllib.quote` leaves unescaped with the default
`safe='/'` argument: letters, digits, `_`, `.`, `-` and `/`. -/
def isQuoteSafe (c : Char) : Bool :=
  (Char.ofNat 65 ≤ c && c ≤ Char.ofNat 90) ||
  (Char.ofNat 97 ≤ c && c ≤ Char.ofNat 122) ||
  (Char.ofNat 48 ≤ c && c ≤ Char.ofNat 57) ||
  c = Char.ofNat 95 || c = Char.ofNat 46 || c = Char.ofNat 45 || c = Char.ofNat 47

/-- Upper-case hexadecimal digit for a value below 16. -/
def hexDigitUpper (n : Nat) : Char :=
  if n < 10 then Char.ofNat (48 + n) else Char.ofNat (55 + n)

/-- Percent-encoding of one character (single-byte characters, the domain of
Python 2 `urllib.quote`). -/
def quoteChar (c : Char) : String :=
  if isQuoteSafe c then String.mk [c]
  else String.mk [Char.ofNat 37, hexDigitUpper (c.toNat / 16 % 16),
                  hexDigitUpper (c.toNat % 16)]

/-- Python 2 `urllib.quote(s)` with the default `safe='/'`. -/
def urllibQuote (s : String) : String :=
  String.join (s.toList.map quoteChar)

/-- The state of a `ClickatellClient` instance after `__init__` finished:
the attribute assignments of `__init__`, with `session_id` as set by
`__login`. -/
structure ClickatellClient where
  api_id : String
  username : String
  password : String
  protocol : String
  session_id : String
deriving Repr, DecidableEq

/-- The class attribute `MAX_RECIPIENTS = 100`. -/
def ClickatellClient.MAX_RECIPIENTS : Nat := 100

/-- The login URL built by `__login`. -/
def loginUrl (protocol api_id username password : String) : String :=
  protocol ++ "://api.clickatell.com/http/auth?api_id=" ++ api_id ++
    "&user=" ++ username ++ "&password=" ++ password

/-- The per-batch send URL built by `send`. -/
def sendBatchUrl (protocol session_id message : String)
    (batch : List String) : String :=
  protocol ++ "://api.clickatell.com/http/sendmsg?session_id=" ++ session_id ++
    "&to=" ++ String.intercalate "," batch ++ "&text=" ++ urllibQuote message

/-- The status-query URL built by `status`. -/
def queryUrl (protocol session_id message_id : String) : String :=
  protocol ++ "://api.clickatell.com/http/querymsg?session_id=" ++ session_id ++
    "&apimsgid=" ++ message_id

/-- The response classification of `__login`: `OK` prefix → session id is
`response[4:]`; `ERR` prefix → `ClickatellException(response[5:8])`;
anything else → `Exception('Failed to connect to API server')`. -/
def loginParse (response : String) : Except PyError String :=
  if pyStartsWith response "OK" then Except.ok (response.drop 4)
  else if pyStartsWith response "ERR" then
    Except.error (PyError.authError (pySlice response 5 8))
  else Except.error PyError.connectionError

/-- `ClickatellClient.__init__`: set the credential attributes, pick the
protocol from `secure`, and run `__login` eagerly; construction fails
whenever `__login` raises. -/
def mkClient (fetch : String → String) (api_id username password : String)
    (secure : Bool) : Except PyError ClickatellClient :=
  let protocol := if secure then "https" else "http"
  match loginParse (fetch (loginUrl protocol api_id username password)) with
  | Except.ok sid => Except.ok (ClickatellClient.mk api_id username password protocol sid)
  | Except.error e => Except.error e

/-- One entry of the `success` list returned by `send`. -/
structure SuccessEntry where
  id : String
  recipient : String
deriving Repr, DecidableEq

/-- One entry of the `error` list returned by `send`. -/
structure ErrorEntry where
  code : String
  recipient : String
  description : String
deriving Repr, DecidableEq

/-- The dict returned by `send`: the `success` and `error` lists. -/
structure SendResult where
  success : List SuccessEntry
  error : List ErrorEntry
deriving Repr, DecidableEq

/-- The single-response branch of `send` (`len(raw_responses) == 1`),
applied to `raw_responses[0]`; Python evaluation order of the dict literals
is kept: `data[0]`, then `recipients[0]`, then the
`CLICKATELL_ERROR_CODES[data[0]]` lookup. -/
def parseSingle (line : String) (recipients : List String) :
    Except PyError SendResult :=
  if pyStartsWith line "ID" then
    match pyListGet (reFindall isIntHexChar line) 0 with
    | Except.error e => Except.error e
    | Except.ok d0 =>
      match pyListGet recipients 0 with
      | Except.error e => Except.error e
      | Except.ok r0 => Except.ok (SendResult.mk [SuccessEntry.mk d0 r0] [])
  else if line = "" then Except.ok (SendResult.mk [] [])
  else
    match pyListGet (reFindall isIntChar line) 0 with
    | Except.error e => Except.error e
    | Except.ok c0 =>
      match pyListGet recipients 0 with
      | Except.error e => Except.error e
      | Except.ok r0 =>
        match pyDictGet CLICKATELL_ERROR_CODES c0 with
        | Except.error e => Except.error e
        | Except.ok desc => Except.ok (SendResult.mk [] [ErrorEntry.mk c0 r0 desc])

/-- One iteration of the multiple-response loop of `send`: the contribution
of one raw response line; Python evaluation order of the dict literals is
kept: `data[0]`, then `data[1]`, then the lookup. -/
def parseMultiLine (line : String) : Except PyError SendResult :=
  if pyStartsWith line "ID" then
    match pyListGet (reFindall isIntHexChar line) 0 with
    | Except.error e => Except.error e
    | Except.ok d0 =>
      match pyListGet (reFindall isIntHexChar line) 1 with
      | Except.error e => Except.error e
      | Except.ok d1 => Except.ok (SendResult.mk [SuccessEntry.mk d0 d1] [])
  else if line = "" then Except.ok (SendResult.mk [] [])
  else
    match pyListGet (reFindall isIntChar line) 0 with
    | Except.error e => Except.error e
    | Except.ok c0 =>
      match pyListGet (reFindall isIntChar line) 1 with
      | Except.error e => Except.error e
      | Except.ok c1 =>
        match pyDictGet CLICKATELL_ERROR_CODES c0 with
        | Except.error e => Except.error e
        | Except.ok desc => Except.ok (SendResult.mk [] [ErrorEntry.mk c0 c1 desc])

/-- The multiple-response branch of `send`: the loop over `raw_responses`,
appending each line's contribution in order; a raised exception aborts the
whole call, as in Python. -/
def parseMulti : List String → Except PyError SendResult
  | [] => Except.ok (SendResult.mk [] [])
  | line :: rest =>
    match parseMultiLine line with
    | Except.error e => Except.error e
    | Except.ok r1 =>
      match parseMulti rest with
      | Except.error e => Except.error e
      | Except.ok r2 =>
        Except.ok (SendResult.mk (r1.success ++ r2.success) (r1.error ++ r2.error))

/-- The response-reconciliation stage of `send`, applied to the accumulated
`raw_responses` list: empty → `Exception('Empty response received from
Clickatell server')`; exactly one line → single-response branch; otherwise
the per-line loop. -/
def sendParse (raw_responses : List String) (recipients : List String) :
    Except PyError SendResult :=
  if raw_responses.length = 0 then Except.error PyError.emptyResponse
  else if raw_responses.length = 1 then parseSingle raw_responses.headI recipients
  else parseMulti raw_responses

/-- Helper for `pyChunks`: fuelled version of the slicing loop
`for i in range(0, len(l), size)`, taking `l[i:i+size]` each time. -/
def chunksAux {α : Type} (size : Nat) : Nat → List α → List (List α)
  | 0, _ => []
  | fuel + 1, l =>
    if l.isEmpty then [] else l.take size :: chunksAux size fuel (l.drop size)

/-- The batch slicing of `send`: the list of `recipients[i:i+size]` slices
for `i in range(0, len(recipients), size)` (for `size > 0`, fuel equal to
the list length always suffices). -/
def pyChunks {α : Type} (size : Nat) (l : List α) : List (List α) :=
  chunksAux size l.length l

/-- The accumulated `raw_responses` list of `send`: each batch's fetched
body split on newlines, concatenated over the batches in order. -/
def sendRawResponses (c : ClickatellClient) (fetch : String → String)
    (message : String) (recipients : List String) : List String :=
  ((pyChunks ClickatellClient.MAX_RECIPIENTS recipients).map
    (fun batch => pySplitNl (fetch (sendBatchUrl c.protocol c.session_id message batch)))).flatten

/-- `ClickatellClient.send`: argument validation, batch loop accumulating
raw response lines, then response reconciliation. -/
def ClickatellClient.send (c : ClickatellClient) (fetch : String → String)
    (message : String) (recipients : List String) : Except PyError SendResult :=
  if message = "" ∨ recipients = [] then Except.error PyError.invalidArgument
  else sendParse (sendRawResponses c fetch message recipients) recipients

/-- The list of send URLs actually requested by `ClickatellClient.send`:
none when validation raises, otherwise one per batch slice. -/
def ClickatellClient.sendUrls (c : ClickatellClient) (message : String)
    (recipients : List String) : List String :=
  if message = "" ∨ recipients = [] then []
  else (pyChunks ClickatellClient.MAX_RECIPIENTS recipients).map
    (sendBatchUrl c.protocol c.session_id message)

/-- `ClickatellClient.status`: fetch the query URL; on an `ID`-prefixed
response return the text after `response.find('Status: ') + 8`; otherwise
the method falls off a bare `return`, i.e. yields `None`. -/
def ClickatellClient.status (c : ClickatellClient) (fetch : String → String)
    (message_id : String) : Option String :=
  let response := fetch (queryUrl c.protocol c.session_id message_id)
  if pyStartsWith response "ID" then
    some (response.drop (pyFind response "Status: " + 8).toNat)
  else none

/-- State-passing view of `send`: the method body contains no attribute
assignment, so the post-call instance state is the pre-call one. -/
def ClickatellClient.sendSt (c : ClickatellClient) (fetch : String → String)
    (message : String) (recipients : List String) :
    Except PyError SendResult × ClickatellClient :=
  (c.send fetch message recipients, c)

/-- State-passing view of `status`: the method body contains no attribute
assignment, so the post-call instance state is the pre-call one. -/
def ClickatellClient.statusSt (c : ClickatellClient) (fetch : String → String)
    (message_id : String) : Option String × ClickatellClient :=
  (c.status fetch message_id, c)

/-- `ClickatellException.__str__`: `'%s: %s' % (code,
CLICKATELL_ERROR_CODES[code])`; the dict access raises `KeyError` for a code
absent from the table. -/
def clickatellExceptionStr (code : String) : Except PyError String :=
  match pyDictGet CLICKATELL_ERROR_CODES code with
  | Except.error e => Except.error e
  | Except.ok desc => Except.ok (code ++ ": " ++ desc)

/-- Observer used in theorem statements: the `i`-th token of
`__INT_HEX_RE.findall(line)` (empty-string default). -/
def hexTok (i : Nat) (line : String) : String :=
  ((reFindall isIntHexChar line).get? i).getD ""

/-- Observer used in theorem statements: the `i`-th token of
`__INT_RE.findall(line)` (empty-string default). -/
def intTok (i : Nat) (line : String) : String :=
  ((reFindall isIntChar line).get? i).getD ""

/-- Observer used in theorem statements: the description the error-code
table assigns to `code` (empty-string default). -/
def descOf (code : String) : String :=
  (dictLookup CLICKATELL_ERROR_CODES code).getD ""

instance exceptDecidableEq {ε α : Type} [DecidableEq ε] [DecidableEq α] :
    DecidableEq (Except ε α)
  | Except.error e1, Except.error e2 =>
    if h : e1 = e2 then isTrue (by rw [h])
    else isFalse (fun hc => h (by injection hc))
  | Except.error _, Except.ok _ => isFalse (fun hc => Except.noConfusion hc)
  | Except.ok _, Except.error _ => isFalse (fun hc => Except.noConfusion hc)
  | Except.ok x1, Except.ok x2 =>
    if h : x1 = x2 then isTrue (by rw [h])
    else isFalse (fun hc => h (by injection hc))

theorem pyListGet_error {α : Type} {l : List α} {i : Nat} {e : PyError}
    (h : pyListGet l i = Except.error e) : e = PyError.indexError := by
  unfold pyListGet at h
  split at h
  · simp at h
  · injection h with h'
    exact h'.symm

theorem pyListGet_ok {α : Type} {l : List α} {i : Nat} {x : α}
    (h : l.get? i = some x) : pyListGet l i = Except.ok x := by
  unfold pyListGet
  rw [h]

theorem pyDictGet_error {table : List (String × String)} {key : String} {e : PyError}
    (h : pyDictGet table key = Except.error e) : e = PyError.keyError key := by
  unfold pyDictGet at h
  split at h
  · simp at h
  · injection h with h'
    exact h'.symm

theorem chunksAux_nil {α : Type} (size f : Nat) :
    chunksAux size f ([] : List α) = [] := by
  cases f <;> simp [chunksAux]

theorem chunksAux_congr {α : Type} (size : Nat) (hs : 0 < size) :
    ∀ (f1 f2 : Nat) (l : List α), l.length ≤ f1 → l.length ≤ f2 →
      chunksAux size f1 l = chunksAux size f2 l := by
  intro f1
  induction f1 with
  | zero =>
    intro f2 l h1 _
    have hl : l = [] := List.eq_nil_of_length_eq_zero (Nat.le_zero.mp h1)
    subst hl
    simp [chunksAux_nil]
  | succ f ih =>
    intro f2 l h1 h2
    cases l with
    | nil => simp [chunksAux_nil]
    | cons a t =>
      cases f2 with
      | zero => simp at h2
      | succ f2' =>
        simp only [chunksAux, List.isEmpty_cons, Bool.false_eq_true, if_false]
        have hd : ((a :: t).drop size).length ≤ f := by
          rw [List.length_drop]
          simp only [List.length_cons] at h1 ⊢
          omega
        have hd2 : ((a :: t).drop size).length ≤ f2' := by
          rw [List.length_drop]
          simp only [List.length_cons] at h2 ⊢
          omega
        rw [ih f2' ((a :: t).drop size) hd hd2]

theorem pyChunks_cons {α : Type} (size : Nat) (hs : 0 < size) (l : List α)
    (hl : l ≠ []) :
    pyChunks size l = l.take size :: pyChunks size (l.drop size) := by
  unfold pyChunks
  cases l with
  | nil => exact absurd rfl hl
  | cons a t =>
    simp only [List.length_cons, chunksAux, List.isEmpty_cons, Bool.false_eq_true,
      if_false]
    have hd : ((a :: t).drop size).length ≤ t.length := by
      rw [List.length_drop]
      simp only [List.length_cons]
      omega
    rw [chunksAux_congr size hs t.length ((a :: t).drop size).length
      ((a :: t).drop size) hd le_rfl]

theorem chunksAux_flatten {α : Type} (size : Nat) (hs : 0 < size) :
    ∀ (f : Nat) (l : List α), l.length ≤ f → (chunksAux size f l).flatten = l := by
  intro f
  induction f with
  | zero =>
    intro l h
    have hl : l = [] := List.eq_nil_of_length_eq_zero (Nat.le_zero.mp h)
    subst hl
    simp [chunksAux_nil]
  | succ f ih =>
    intro l h
    cases l with
    | nil => simp [chunksAux_nil]
    | cons a t =>
      simp only [chunksAux, List.isEmpty_cons, Bool.false_eq_true, if_false,
        List.flatten_cons]
      rw [ih ((a :: t).drop size) (by rw [List.length_drop]; simp only [List.length_cons] at h ⊢; omega)]
      exact List.take_append_drop size (a :: t)

theorem chunksAux_mem {α : Type} (size : Nat) :
    ∀ (f : Nat) (l ch : List α), ch ∈ chunksAux size f l → ch.length ≤ size := by
  intro f
  induction f with
  | zero =>
    intro l ch h
    simp [chunksAux] at h
  | succ f ih =>
    intro l ch h
    cases l with
    | nil => simp [chunksAux_nil] at h
    | cons a t =>
      simp only [chunksAux, List.isEmpty_cons, Bool.false_eq_true, if_false,
        List.mem_cons] at h
      rcases h with h | h
      · subst h
        exact List.length_take_le size (a :: t)
      · exact ih ((a :: t).drop size) ch h

theorem chunksAux_length100 {α : Type} :
    ∀ (f : Nat) (l : List α), l.length ≤ f →
      (chunksAux 100 f l).length = (l.length + 99) / 100 := by
  intro f
  induction f with
  | zero =>
    intro l h
    have hl : l = [] := List.eq_nil_of_length_eq_zero (Nat.le_zero.mp h)
    subst hl
    simp [chunksAux_nil]
  | succ f ih =>
    intro l h
    cases l with
    | nil => simp [chunksAux_nil]
    | cons a t =>
      simp only [chunksAux, List.isEmpty_cons, Bool.false_eq_true, if_false,
        List.length_cons]
      rw [ih ((a :: t).drop 100) (by rw [List.length_drop]; simp only [List.length_cons] at h ⊢; omega)]
      rw [List.length_drop]
      simp only [List.length_cons]
      omega

/-- C1: for every non-empty message and non-empty recipients list, `send`
partitions the recipients into consecutive chunks of size at most
`MAX_RECIPIENTS = 100`, in the original order, and issues exactly
`ceil(len(recipients)/100)` batch requests, one per chunk. -/
theorem send_partitions_into_chunks (c : ClickatellClient) (message : String)
    (recipients : List String) (hm : message ≠ "") (hr : recipients ≠ []) :
    (pyChunks ClickatellClient.MAX_RECIPIENTS recipients).flatten = recipients ∧
    (∀ chunk ∈ pyChunks ClickatellClient.MAX_RECIPIENTS recipients,
      chunk.length ≤ ClickatellClient.MAX_RECIPIENTS) ∧
    (c.sendUrls message recipients).length = (recipients.length + 99) / 100 := by
  refine ⟨?_, ?_, ?_⟩
  · exact chunksAux_flatten ClickatellClient.MAX_RECIPIENTS (by decide)
      recipients.length recipients le_rfl
  · intro ch h
    exact chunksAux_mem ClickatellClient.MAX_RECIPIENTS recipients.length recipients ch h
  · unfold ClickatellClient.sendUrls
    rw [if_neg (by rintro (h | h); exacts [hm h, hr h])]
    rw [List.length_map]
    exact chunksAux_length100 recipients.length recipients le_rfl

theorem send_partitions_into_chunks_witness :
    (pyChunks ClickatellClient.MAX_RECIPIENTS ["a", "b", "c"]).flatten = ["a", "b", "c"] ∧
    ((ClickatellClient.mk "i" "u" "p" "http" "t").sendUrls "hi" ["a", "b", "c"]).length = 1 := by
  obtain ⟨h1, _, h3⟩ := send_partitions_into_chunks
    (ClickatellClient.mk "i" "u" "p" "http" "t") "hi" ["a", "b", "c"]
    (by decide) (by decide)
  refine ⟨h1, ?_⟩
  rw [h3]
  decide

theorem parseSingle_error {line : String} {recipients : List String} {e : PyError}
    (h : parseSingle line recipients = Except.error e) :
    e = PyError.indexError ∨ ∃ k, e = PyError.keyError k := by
  unfold parseSingle at h
  by_cases hid : pyStartsWith line "ID" = true
  · rw [if_pos hid] at h
    cases h0 : pyListGet (reFindall isIntHexChar line) 0 with
    | error e1 =>
      simp only [h0] at h
      injection h with h'
      exact Or.inl (by rw [← h']; exact pyListGet_error h0)
    | ok d0 =>
      simp only [h0] at h
      cases h1 : pyListGet recipients 0 with
      | error e1 =>
        simp only [h1] at h
        injection h with h'
        exact Or.inl (by rw [← h']; exact pyListGet_error h1)
      | ok r0 =>
        simp only [h1] at h
        simp at h
  · rw [if_neg hid] at h
    by_cases hemp : line = ""
    · rw [if_pos hemp] at h
      simp at h
    · rw [if_neg hemp] at h
      cases h0 : pyListGet (reFindall isIntChar line) 0 with
      | error e1 =>
        simp only [h0] at h
        injection h with h'
        exact Or.inl (by rw [← h']; exact pyListGet_error h0)
      | ok c0 =>
        simp only [h0] at h
        cases h1 : pyListGet recipients 0 with
        | error e1 =>
          simp only [h1] at h
          injection h with h'
          exact Or.inl (by rw [← h']; exact pyListGet_error h1)
        | ok r0 =>
          simp only [h1] at h
          cases h2 : pyDictGet CLICKATELL_ERROR_CODES c0 with
          | error e1 =>
            simp only [h2] at h
            injection h with h'
            exact Or.inr ⟨c0, by rw [← h']; exact pyDictGet_error h2⟩
          | ok desc =>
            simp only [h2] at h
            simp at h

theorem parseMultiLine_error {line : String} {e : PyError}
    (h : parseMultiLine line = Except.error e) :
    e = PyError.indexError ∨ ∃ k, e = PyError.keyError k := by
  unfold parseMultiLine at h
  by_cases hid : pyStartsWith line "ID" = true
  · rw [if_pos hid] at h
    cases h0 : pyListGet (reFindall isIntHexChar line) 0 with
    | error e1 =>
      simp only [h0] at h
      injection h with h'
      exact Or.inl (by rw [← h']; exact pyListGet_error h0)
    | ok d0 =>
      simp only [h0] at h
      cases h1 : pyListGet (reFindall isIntHexChar line) 1 with
      | error e1 =>
        simp only [h1] at h
        injection h with h'
        exact Or.inl (by rw [← h']; exact pyListGet_error h1)
      | ok d1 =>
        simp only [h1] at h
        simp at h
  · rw [if_neg hid] at h
    by_cases hemp : line = ""
    · rw [if_pos hemp] at h
      simp at h
    · rw [if_neg hemp] at h
      cases h0 : pyListGet (reFindall isIntChar line) 0 with
      | error e1 =>
        simp only [h0] at h
        injection h with h'
        exact Or.inl (by rw [← h']; exact pyListGet_error h0)
      | ok c0 =>
        simp only [h0] at h
        cases h1 : pyListGet (reFindall isIntChar line) 1 with
        | error e1 =>
          simp only [h1] at h
          injection h with h'
          exact Or.inl (by rw [← h']; exact pyListGet_error h1)
        | ok c1 =>
          simp only [h1] at h
          cases h2 : pyDictGet CLICKATELL_ERROR_CODES c0 with
          | error e1 =>
            simp only [h2] at h
            injection h with h'
            exact Or.inr ⟨c0, by rw [← h']; exact pyDictGet_error h2⟩
          | ok desc =>
            simp only [h2] at h
            simp at h

theorem parseMulti_error : ∀ {lines : List String} {e : PyError},
    parseMulti lines = Except.error e →
    e = PyError.indexError ∨ ∃ k, e = PyError.keyError k := by
  intro lines
  induction lines with
  | nil =>
    intro e h
    simp [parseMulti] at h
  | cons l rest ih =>
    intro e h
    unfold parseMulti at h
    cases h0 : parseMultiLine l with
    | error e1 =>
      simp only [h0] at h
      injection h with h'
      subst h'
      exact parseMultiLine_error h0
    | ok r1 =>
      simp only [h0] at h
      cases h1 : parseMulti rest with
      | error e2 =>
        simp only [h1] at h
        injection h with h'
        subst h'
        exact ih h1
      | ok r2 =>
        simp only [h1] at h
        simp at h

theorem sendParse_error {lines recipients : List String} {e : PyError}
    (h : sendParse lines recipients = Except.error e) :
    e = PyError.emptyResponse ∨ e = PyError.indexError ∨ ∃ k, e = PyError.keyError k := by
  unfold sendParse at h
  by_cases h0 : lines.length = 0
  · rw [if_pos h0] at h
    injection h with h'
    exact Or.inl h'.symm
  · rw [if_neg h0] at h
    by_cases h1 : lines.length = 1
    · rw [if_pos h1] at h
      exact Or.inr (parseSingle_error h)
    · rw [if_neg h1] at h
      exact Or.inr (parseMulti_error h)

/-- C4: the reconciliation stage of `send` fails with the empty-response
error exactly when the accumulated raw response line sequence is empty (and
`send` invokes this stage on the lines accumulated across all chunks). -/
theorem send_empty_lines_empty_response (lines recipients : List String) :
    sendParse lines recipients = Except.error PyError.emptyResponse ↔ lines = [] := by
  constructor
  · intro h
    by_contra hc
    have hlen : lines.length ≠ 0 := fun h0 => hc (List.eq_nil_of_length_eq_zero h0)
    unfold sendParse at h
    rw [if_neg hlen] at h
    by_cases h1 : lines.length = 1
    · rw [if_pos h1] at h
      rcases parseSingle_error h with h' | ⟨k, h'⟩ <;> simp at h'
    · rw [if_neg h1] at h
      rcases parseMulti_error h with h' | ⟨k, h'⟩ <;> simp at h'
  · intro h
    subst h
    rfl

/-- C6: `send` fails with the invalid-argument error exactly when the
message is empty or the recipients list is empty, and in that case it
issues no network request. -/
theorem send_invalid_argument_iff (c : ClickatellClient) (fetch : String → String)
    (message : String) (recipients : List String) :
    (c.send fetch message recipients = Except.error PyError.invalidArgument ↔
      message = "" ∨ recipients = []) ∧
    (message = "" ∨ recipients = [] → c.sendUrls message recipients = []) := by
  refine ⟨⟨?_, ?_⟩, ?_⟩
  · intro h
    by_contra hc
    unfold ClickatellClient.send at h
    rw [if_neg hc] at h
    rcases sendParse_error h with h' | h' | ⟨k, h'⟩ <;> simp at h'
  · intro h
    unfold ClickatellClient.send
    rw [if_pos h]
  · intro h
    unfold ClickatellClient.sendUrls
    rw [if_pos h]

theorem send_invalid_argument_iff_witness :
    (ClickatellClient.mk "i" "u" "p" "http" "t").send (fun _ => "") "" ["r"] =
      Except.error PyError.invalidArgument ∧
    (ClickatellClient.mk "i" "u" "p" "http" "t").sendUrls "" ["r"] = [] := by
  obtain ⟨h1, h2⟩ := send_invalid_argument_iff
    (ClickatellClient.mk "i" "u" "p" "http" "t") (fun _ => "") "" ["r"]
  exact ⟨h1.mpr (Or.inl rfl), h2 (Or.inl rfl)⟩

/-- Well-formedness of one raw response line for the multiple-response
branch: an `ID` line carries at least two alphanumeric-run tokens, and a
non-empty non-`ID` line carries at least two decimal tokens, the first of
which is a key of the error-code table. -/
def multiLineWf (line : String) : Prop :=
  (pyStartsWith line "ID" = true → 2 ≤ (reFindall isIntHexChar line).length) ∧
  (pyStartsWith line "ID" = false → line ≠ "" →
    2 ≤ (reFindall isIntChar line).length ∧
    (dictLookup CLICKATELL_ERROR_CODES (intTok 0 line)).isSome = true)

instance multiLineWfDecidable (line : String) : Decidable (multiLineWf line) :=
  decidable_of_iff
    ((pyStartsWith line "ID" = true → 2 ≤ (reFindall isIntHexChar line).length) ∧
     (pyStartsWith line "ID" = false → line ≠ "" →
       2 ≤ (reFindall isIntChar line).length ∧
       (dictLookup CLICKATELL_ERROR_CODES (intTok 0 line)).isSome = true))
    Iff.rfl

theorem get?_of_le {α : Type} {l : List α} {i : Nat} (h : i + 1 ≤ l.length) :
    ∃ x, l.get? i = some x := by
  cases hx : l.get? i with
  | none =>
    rw [List.get?_eq_none] at hx
    omega
  | some x => exact ⟨x, rfl⟩

theorem parseMultiLine_wf (line : String) (h : multiLineWf line) :
    parseMultiLine line = Except.ok (SendResult.mk
      (if pyStartsWith line "ID" then
        [SuccessEntry.mk (hexTok 0 line) (hexTok 1 line)] else [])
      (if pyStartsWith line "ID" = false ∧ line ≠ "" then
        [ErrorEntry.mk (intTok 0 line) (intTok 1 line) (descOf (intTok 0 line))] else [])) := by
  by_cases hid : pyStartsWith line "ID" = true
  · have hlen := h.1 hid
    obtain ⟨d0, hd0⟩ := get?_of_le (l := reFindall isIntHexChar line) (i := 0) (by omega)
    obtain ⟨d1, hd1⟩ := get?_of_le (l := reFindall isIntHexChar line) (i := 1) (by omega)
    have hd0' : (reFindall isIntHexChar line)[0]? = some d0 := by simpa using hd0
    have hd1' : (reFindall isIntHexChar line)[1]? = some d1 := by simpa using hd1
    unfold parseMultiLine
    rw [if_pos hid, pyListGet_ok hd0]
    simp only []
    rw [pyListGet_ok hd1]
    simp only []
    rw [if_pos hid, if_neg (by simp [hid])]
    simp [hexTok, hd0', hd1']
  · have hid' : pyStartsWith line "ID" = false := by
      simpa using hid
    by_cases hemp : line = ""
    · unfold parseMultiLine
      rw [if_neg hid, if_pos hemp, if_neg hid, if_neg (by simp [hemp])]
    · obtain ⟨hlen, hsome⟩ := h.2 hid' hemp
      obtain ⟨c0, hc0⟩ := get?_of_le (l := reFindall isIntChar line) (i := 0) (by omega)
      obtain ⟨c1, hc1⟩ := get?_of_le (l := reFindall isIntChar line) (i := 1) (by omega)
      have hc0' : (reFindall isIntChar line)[0]? = some c0 := by simpa using hc0
      have hc1' : (reFindall isIntChar line)[1]? = some c1 := by simpa using hc1
      have hc0tok : intTok 0 line = c0 := by simp [intTok, hc0']
      obtain ⟨desc, hdesc⟩ := Option.isSome_iff_exists.mp hsome
      unfold parseMultiLine
      rw [if_neg hid, if_neg hemp, pyListGet_ok hc0]
      simp only []
      rw [pyListGet_ok hc1]
      simp only []
      unfold pyDictGet
      rw [← hc0tok, hdesc]
      simp only []
      rw [if_neg hid, if_pos ⟨hid', hemp⟩]
      have hc1tok : intTok 1 line = c1 := by simp [intTok, hc1']
      have hdescOf : descOf (intTok 0 line) = desc := by
        unfold descOf
        rw [hdesc]
        rfl
      rw [hdescOf, hc0tok, hc1tok]

theorem parseMulti_wf : ∀ (lines : List String), (∀ l ∈ lines, multiLineWf l) →
    parseMulti lines = Except.ok (SendResult.mk
      ((lines.filter (fun l => pyStartsWith l "ID")).map
        (fun l => SuccessEntry.mk (hexTok 0 l) (hexTok 1 l)))
      ((lines.filter (fun l => !(pyStartsWith l "ID") && !(l == ""))).map
        (fun l => ErrorEntry.mk (intTok 0 l) (intTok 1 l) (descOf (intTok 0 l))))) := by
  intro lines
  induction lines with
  | nil => intro _; rfl
  | cons l rest ih =>
    intro hwf
    unfold parseMulti
    rw [parseMultiLine_wf l (hwf l (by simp))]
    simp only []
    rw [ih (fun x hx => hwf x (by simp [hx]))]
    simp only []
    by_cases hid : pyStartsWith l "ID" = true
    · simp [List.filter_cons, hid]
    · have hid' : pyStartsWith l "ID" = false := by simpa using hid
      by_cases hemp : l = ""
      · subst hemp
        simp [List.filter_cons, hid']
      · simp [List.filter_cons, hid', hemp]

/-- C2: when `send` accumulates more than one raw response line then, for
every line, an `ID`-prefixed line records a success whose id and recipient
are the first and second extracted alphanumeric-run tokens, and a non-empty
non-`ID` line records a failure whose code and recipient are the first and
second extracted decimal tokens, with the description looked up from the
error-code table. -/
theorem send_multiline_parsing (lines recipients : List String)
    (hlen : 1 < lines.length) (hwf : ∀ l ∈ lines, multiLineWf l) :
    sendParse lines recipients = Except.ok (SendResult.mk
      ((lines.filter (fun l => pyStartsWith l "ID")).map
        (fun l => SuccessEntry.mk (hexTok 0 l) (hexTok 1 l)))
      ((lines.filter (fun l => !(pyStartsWith l "ID") && !(l == ""))).map
        (fun l => ErrorEntry.mk (intTok 0 l) (intTok 1 l) (descOf (intTok 0 l))))) := by
  unfold sendParse
  rw [if_neg (by omega), if_neg (by omega)]
  exact parseMulti_wf lines hwf

theorem send_multiline_parsing_witness :
    sendParse ["ID: 1234abc To: 111", "ERR: 105, Invalid Destination Address, To: 222"]
        ["r1", "r2"] =
      Except.ok (SendResult.mk [SuccessEntry.mk "1234abc" "111"]
        [ErrorEntry.mk "105" "222" "Invalid Destination Address"]) := by
  rw [send_multiline_parsing
    ["ID: 1234abc To: 111", "ERR: 105, Invalid Destination Address, To: 222"]
    ["r1", "r2"] (by decide) (by decide)]
  decide

/-- C3: when `send` accumulates exactly one raw response line, that line is
associated with the first recipient: an `ID`-prefixed line records a
success whose id is the first alphanumeric-run token, and a non-empty
non-`ID` line records a failure whose code is the first decimal token with
the table's description. -/
theorem send_singleline_parsing (line : String) (recipients : List String)
    (hr : recipients ≠ []) :
    (pyStartsWith line "ID" = true →
      1 ≤ (reFindall isIntHexChar line).length →
      sendParse [line] recipients =
        Except.ok (SendResult.mk [SuccessEntry.mk (hexTok 0 line) recipients.headI] [])) ∧
    (pyStartsWith line "ID" = false → line ≠ "" →
      1 ≤ (reFindall isIntChar line).length →
      (dictLookup CLICKATELL_ERROR_CODES (intTok 0 line)).isSome = true →
      sendParse [line] recipients =
        Except.ok (SendResult.mk []
          [ErrorEntry.mk (intTok 0 line) recipients.headI (descOf (intTok 0 line))])) := by
  have hr0 : recipients.get? 0 = some recipients.headI := by
    cases recipients with
    | nil => exact absurd rfl hr
    | cons a t => rfl
  have hsp : sendParse [line] recipients = parseSingle line recipients := by
    unfold sendParse
    simp
  constructor
  · intro hid hlen
    obtain ⟨d0, hd0⟩ := get?_of_le (l := reFindall isIntHexChar line) (i := 0) (by omega)
    have hd0' : (reFindall isIntHexChar line)[0]? = some d0 := by simpa using hd0
    rw [hsp]
    unfold parseSingle
    rw [if_pos hid, pyListGet_ok hd0]
    simp only []
    rw [pyListGet_ok hr0]
    simp only []
    simp [hexTok, hd0']
  · intro hid hemp hlen hsome
    obtain ⟨c0, hc0⟩ := get?_of_le (l := reFindall isIntChar line) (i := 0) (by omega)
    have hc0' : (reFindall isIntChar line)[0]? = some c0 := by simpa using hc0
    have hc0tok : intTok 0 line = c0 := by simp [intTok, hc0']
    obtain ⟨desc, hdesc⟩ := Option.isSome_iff_exists.mp hsome
    rw [hsp]
    unfold parseSingle
    rw [if_neg (by simp [hid]), if_neg hemp, pyListGet_ok hc0]
    simp only []
    rw [pyListGet_ok hr0]
    simp only []
    unfold pyDictGet
    rw [← hc0tok, hdesc]
    simp only []
    have hdescOf : descOf (intTok 0 line) = desc := by
      unfold descOf
      rw [hdesc]
      rfl
    rw [hdescOf, hc0tok]

theorem send_singleline_parsing_witness :
    sendParse ["ID:1234 To:2637"] ["2637"] =
      Except.ok (SendResult.mk [SuccessEntry.mk "1234" "2637"] []) ∧
    sendParse ["ERR:105, Invalid Destination Address"] ["2637"] =
      Except.ok (SendResult.mk []
        [ErrorEntry.mk "105" "2637" "Invalid Destination Address"]) := by
  constructor
  · rw [(send_singleline_parsing "ID:1234 To:2637" ["2637"] (by decide)).1
      (by decide) (by decide)]
    decide
  · rw [(send_singleline_parsing "ERR:105, Invalid Destination Address" ["2637"]
      (by decide)).2 (by decide) (by decide) (by decide) (by decide)]
    decide

theorem loginParse_ok {r sid : String} (h : loginParse r = Except.ok sid) :
    pyStartsWith r "OK" = true ∧ sid = r.drop 4 := by
  unfold loginParse at h
  by_cases hok : pyStartsWith r "OK" = true
  · rw [if_pos hok] at h
    injection h with h'
    exact ⟨hok, h'.symm⟩
  · rw [if_neg hok] at h
    by_cases herr : pyStartsWith r "ERR" = true
    · rw [if_pos herr] at h
      simp at h
    · rw [if_neg herr] at h
      simp at h

theorem mkClient_ok {fetch : String → String} {api_id username password : String}
    {secure : Bool} {c : ClickatellClient}
    (h : mkClient fetch api_id username password secure = Except.ok c) :
    c = ClickatellClient.mk api_id username password
      (if secure then "https" else "http")
      ((fetch (loginUrl (if secure then "https" else "http")
        api_id username password)).drop 4) := by
  simp only [mkClient] at h
  cases hlp : loginParse (fetch (loginUrl (if secure then "https" else "http")
      api_id username password)) with
  | error e =>
    rw [hlp] at h
    simp at h
  | ok sid =>
    rw [hlp] at h
    injection h with h'
    obtain ⟨_, hsid⟩ := loginParse_ok hlp
    rw [← h', hsid]

/-- C5 counterexample: construction can return without raising while the
session token is the empty string, because `response[4:]` of the auth
response `"OK"` is empty. -/
theorem session_token_nonempty_cex :
    mkClient (fun _ => "OK") "id" "user" "pw" false =
      Except.ok (ClickatellClient.mk "id" "user" "pw" "http" "") := by
  rfl

/-- C5 (amended): for every client whose construction returns without
raising, the session token equals the auth response text after its 4th
character — non-empty whenever that response is longer than 4 characters,
but possibly empty otherwise — and no operation rewrites it for the rest of
the client's lifetime. -/
theorem session_token_amended (fetch : String → String)
    (api_id username password : String) (secure : Bool) (c : ClickatellClient)
    (h : mkClient fetch api_id username password secure = Except.ok c) :
    c.session_id =
      (fetch (loginUrl (if secure then "https" else "http")
        api_id username password)).drop 4 ∧
    (4 < (fetch (loginUrl (if secure then "https" else "http")
        api_id username password)).length → c.session_id ≠ "") ∧
    (∀ (fetch2 : String → String) (message : String) (recipients : List String),
      (ClickatellClient.sendSt c fetch2 message recipients).2 = c) ∧
    (∀ (fetch2 : String → String) (message_id : String),
      (ClickatellClient.statusSt c fetch2 message_id).2 = c) := by
  have hc := mkClient_ok h
  refine ⟨by rw [hc], ?_, fun _ _ _ => rfl, fun _ _ => rfl⟩
  intro hlen
  rw [hc]
  intro hcon
  have hdl : ((fetch (loginUrl (if secure then "https" else "http")
      api_id username password)).drop 4).length =
      (fetch (loginUrl (if secure then "https" else "http")
        api_id username password)).length - 4 := by
    show ((fetch _).drop 4).data.length = (fetch _).data.length - 4
    rw [String.data_drop]
    exact List.length_drop 4 _
  have hcon' : (fetch (loginUrl (if secure then "https" else "http")
      api_id username password)).drop 4 = "" := hcon
  rw [hcon'] at hdl
  simp at hdl
  omega

theorem session_token_amended_witness :
    (ClickatellClient.mk "id" "user" "pw" "http" "tok1").session_id ≠ "" ∧
    (ClickatellClient.sendSt (ClickatellClient.mk "id" "user" "pw" "http" "tok1")
      (fun _ => "") "m" ["r"]).2 =
      ClickatellClient.mk "id" "user" "pw" "http" "tok1" := by
  have h := session_token_amended (fun _ => "OK: tok1") "id" "user" "pw" false
    (ClickatellClient.mk "id" "user" "pw" "http" "tok1") (by rfl)
  exact ⟨h.2.1 (by decide), h.2.2.1 (fun _ => "") "m" ["r"]⟩

/-- C7: `__login` classifies the raw auth response in exactly three ways:
an `OK`-prefixed response yields the session token `response[4:]`; an
`ERR`-prefixed response raises `ClickatellException` with the code at
character offsets 5 to 8, whose printed description comes from the
error-code table; any other response (the empty one included) raises the
generic connection failure. -/
theorem login_classification (response : String) :
    (pyStartsWith response "OK" = true →
      loginParse response = Except.ok (response.drop 4)) ∧
    (pyStartsWith response "OK" = false → pyStartsWith response "ERR" = true →
      loginParse response = Except.error (PyError.authError (pySlice response 5 8))) ∧
    (pyStartsWith response "OK" = false → pyStartsWith response "ERR" = false →
      loginParse response = Except.error PyError.connectionError) ∧
    (∀ code desc, dictLookup CLICKATELL_ERROR_CODES code = some desc →
      clickatellExceptionStr code = Except.ok (code ++ ": " ++ desc)) := by
  refine ⟨?_, ?_, ?_, ?_⟩
  · intro h
    unfold loginParse
    rw [if_pos h]
  · intro h1 h2
    unfold loginParse
    rw [if_neg (by simp [h1]), if_pos h2]
  · intro h1 h2
    unfold loginParse
    rw [if_neg (by simp [h1]), if_neg (by simp [h2])]
  · intro code desc h
    unfold clickatellExceptionStr pyDictGet
    rw [h]

theorem login_classification_witness :
    loginParse "OK: Sess123" = Except.ok "Sess123" ∧
    loginParse "ERR: 001, Authentication Failed" =
      Except.error (PyError.authError "001") ∧
    loginParse "" = Except.error PyError.connectionError ∧
    clickatellExceptionStr "001" = Except.ok "001: Authentication Failed" := by
  refine ⟨?_, ?_, ?_, ?_⟩
  · rw [(login_classification "OK: Sess123").1 (by decide)]
    decide
  · rw [(login_classification "ERR: 001, Authentication Failed").2.1
      (by decide) (by decide)]
    decide
  · exact (login_classification "").2.2.1 (by decide) (by decide)
  · rw [(login_classification "").2.2.2 "001" "Authentication Failed" (by decide)]
    decide

/-- C8: whenever the gateway response starts with `ID` and contains the
literal marker `"Status: "` (first occurrence at index `i`), `status`
returns the substring following the marker; for every response not
starting with `ID` it returns the absent result. -/
theorem status_extracts_status (c : ClickatellClient) (message_id response : String) :
    (pyStartsWith response "ID" = true →
      ∀ i, findSubAux ("Status: ").toList response.toList 0 = some i →
        ClickatellClient.status c (fun _ => response) message_id =
          some (response.drop (i + 8))) ∧
    (pyStartsWith response "ID" = false →
      ClickatellClient.status c (fun _ => response) message_id = none) := by
  constructor
  · intro hid i hfind
    unfold ClickatellClient.status
    simp only []
    rw [if_pos hid]
    have hpf : pyFind response "Status: " = (i : Int) := by
      unfold pyFind
      rw [hfind]
    rw [hpf]
    congr 1
  · intro hid
    unfold ClickatellClient.status
    simp only []
    rw [if_neg (by simp [hid])]

theorem status_extracts_status_witness :
    (ClickatellClient.mk "i" "u" "p" "http" "t").status
      (fun _ => "ID: 1 Status: 008") "1" = some "008" := by
  rw [(status_extracts_status (ClickatellClient.mk "i" "u" "p" "http" "t") "1"
    "ID: 1 Status: 008").1 (by decide) 6 (by decide)]
  decide

/-- C9 counterexample: a non-`ID` line whose first decimal token is absent
from the error-code table makes `send` abort with an uncaught `KeyError`
propagating out of the dict access — not a recorded failure and not one of
the library's own declared errors. -/
theorem unknown_code_uncaught_cex :
    sendParse ["ERR: 999, Some Unknown Failure"] ["r1"] =
      Except.error (PyError.keyError "999") := by
  rfl

/-- C9 (amended): when `send` parses a non-`ID` response line whose first
decimal token is a code absent from the error-code table, the call aborts
with an uncaught `KeyError` carrying that code (an unhandled crash rather
than a library-defined error); every code present in the error-code table
maps to a non-empty description. -/
theorem unknown_code_uncaught_key_error :
    (∀ (line : String) (recipients : List String),
      pyStartsWith line "ID" = false → line ≠ "" →
      1 ≤ (reFindall isIntChar line).length → recipients ≠ [] →
      dictLookup CLICKATELL_ERROR_CODES (intTok 0 line) = none →
      sendParse [line] recipients =
        Except.error (PyError.keyError (intTok 0 line))) ∧
    (∀ p ∈ CLICKATELL_ERROR_CODES, p.2 ≠ "") := by
  constructor
  · intro line recipients hid hemp hlen hr hnone
    have hr0 : recipients.get? 0 = some recipients.headI := by
      cases recipients with
      | nil => exact absurd rfl hr
      | cons a t => rfl
    obtain ⟨c0, hc0⟩ := get?_of_le (l := reFindall isIntChar line) (i := 0) (by omega)
    have hc0' : (reFindall isIntChar line)[0]? = some c0 := by simpa using hc0
    have hc0tok : intTok 0 line = c0 := by simp [intTok, hc0']
    have hsp : sendParse [line] recipients = parseSingle line recipients := by
      unfold sendParse
      simp
    rw [hsp]
    unfold parseSingle
    rw [if_neg (by simp [hid]), if_neg hemp, pyListGet_ok hc0]
    simp only []
    rw [pyListGet_ok hr0]
    simp only []
    unfold pyDictGet
    rw [← hc0tok, hnone]
  · decide

theorem unknown_code_uncaught_key_error_witness :
    sendParse ["ERR: 998, Another Unknown Failure"] ["r1"] =
      Except.error (PyError.keyError "998") ∧
    ("001", "Authentication Failed").2 ≠ "" := by
  constructor
  · rw [unknown_code_uncaught_key_error.1 "ERR: 998, Another Unknown Failure" ["r1"]
      (by decide) (by decide) (by decide) (by decide) (by decide)]
    decide
  · exact unknown_code_uncaught_key_error.2 ("001", "Authentication Failed") (by decide)

/-- C10: when the transport fails (returns the empty body) on the sole
chunk of a valid `send` call, the accumulated raw line list is exactly one
empty line, so `send` raises nothing and returns with both result lists
empty. -/
theorem transport_failure_silent (c : ClickatellClient) (fetch : String → String)
    (message : String) (recipients : List String) (hm : message ≠ "")
    (hr : recipients ≠ []) (hlen : recipients.length ≤ 100)
    (hf : ∀ u, fetch u = "") :
    sendRawResponses c fetch message recipients = [""] ∧
    c.send fetch message recipients = Except.ok (SendResult.mk [] []) := by
  have hchunks : pyChunks ClickatellClient.MAX_RECIPIENTS recipients = [recipients] := by
    have h100 : ClickatellClient.MAX_RECIPIENTS = 100 := rfl
    rw [h100, pyChunks_cons 100 (by omega) recipients hr]
    rw [List.take_of_length_le hlen, List.drop_eq_nil_of_le hlen]
    rfl
  have hraw : sendRawResponses c fetch message recipients = [""] := by
    unfold sendRawResponses
    rw [hchunks]
    simp only [List.map_cons, List.map_nil, hf]
    rfl
  refine ⟨hraw, ?_⟩
  unfold ClickatellClient.send
  rw [if_neg (by rintro (h | h); exacts [hm h, hr h]), hraw]
  rfl

theorem transport_failure_silent_witness :
    (ClickatellClient.mk "i" "u" "p" "http" "t").send (fun _ => "") "hi" ["r"] =
      Except.ok (SendResult.mk [] []) := by
  exact (transport_failure_silent (ClickatellClient.mk "i" "u" "p" "http" "t")
    (fun _ => "") "hi" ["r"] (by decide) (by decide) (by decide) (fun _ => rfl)).2

end Clickatell
